import Mathlib

/-!
Shallow embedding of `src/app.py` (a Tkinter GUI question/answer tool over
Firebase REST) and proofs of the spec claims about it.

Python values flowing through the program are modelled by a small JSON type
(`Json`), where `Json.null` plays the role of Python's `None` (the two are the
same object in the source). Network effects are modelled by an
`HttpOutcome`: either the `requests` call raised (`none`) or it produced a
response with a status code and a body that either parses as JSON or raises
on `.json()` (`jsonBody = none`). Python exceptions inside `try` suites are
modelled with `Except Exn`; every handler in the source is
`except Exception`, i.e. it catches every exception.
-/

namespace App

/-- JSON values; `Json.null` also stands for Python `None`. -/
inductive Json where
  | null : Json
  | bool (b : Bool) : Json
  | num (n : Int) : Json
  | str (s : String) : Json
  | arr (xs : List Json) : Json
  | obj (fields : List (String × Json)) : Json
deriving Repr

mutual

/-- Boolean equality on JSON values (Python `==` on these shapes). -/
def Json.beq : Json → Json → Bool
  | .null, .null => true
  | .bool a, .bool b => a == b
  | .num a, .num b => a == b
  | .str a, .str b => a == b
  | .arr xs, .arr ys => Json.beqList xs ys
  | .obj xs, .obj ys => Json.beqObj xs ys
  | _, _ => false

/-- Elementwise equality of JSON arrays. -/
def Json.beqList : List Json → List Json → Bool
  | [], [] => true
  | x :: xs, y :: ys => Json.beq x y && Json.beqList xs ys
  | _, _ => false

/-- Elementwise equality of JSON object field lists. -/
def Json.beqObj : List (String × Json) → List (String × Json) → Bool
  | [], [] => true
  | (k, v) :: xs, (l, w) :: ys => k == l && Json.beq v w && Json.beqObj xs ys
  | _, _ => false

end

/-- Python truthiness of a value. -/
def Json.truthy : Json → Bool
  | .null => false
  | .bool b => b
  | .num n => n != 0
  | .str s => s != ""
  | .arr xs => !xs.isEmpty
  | .obj fs => !fs.isEmpty

/-- First-match lookup in a `Json`-keyed dict (Python `dict` access; keys are
unique in any dict the program builds, so first match is the match). -/
def Cache.find? : List (Json × Json) → Json → Option Json
  | [], _ => none
  | (k, v) :: rest, k' => if Json.beq k k' then some v else Cache.find? rest k'

/-- Python `d[k] = v` on a `Json`-keyed dict: replace the binding if present,
else append. -/
def Cache.set : List (Json × Json) → Json → Json → List (Json × Json)
  | [], k, v => [(k, v)]
  | (k', v') :: rest, k, v =>
    if Json.beq k' k then (k, v) :: rest else (k', v') :: Cache.set rest k v

/-- First-match lookup on a JSON object's field list (`String` keys). -/
def Dict.find? : List (String × Json) → String → Option Json
  | [], _ => none
  | (k, v) :: rest, k' => if k = k' then some v else Dict.find? rest k'

/-- Python `d.get(k, default)` on a JSON object's field list. -/
def dgetD (fs : List (String × Json)) (k : String) (d : Json) : Json :=
  (Dict.find? fs k).getD d

/-- Python `str.strip()`: drop whitespace from both ends. -/
def pyStrip (s : String) : String :=
  ⟨((s.data.dropWhile Char.isWhitespace).reverse.dropWhile Char.isWhitespace).reverse⟩

/-- Python exceptions the embedded code can raise. -/
inductive Exn where
  | transportError : Exn
  | decodeError : Exn
  | attributeError : Exn
  | keyError : Exn
deriving Repr, DecidableEq

/-- An HTTP response as the program observes it: a status code, and a body
that either parses as JSON (`some j`, `j` possibly `null`) or makes
`response.json()` raise (`none`). -/
structure HttpResponse where
  status : Nat
  jsonBody : Option Json
deriving Repr

/-- Outcome of one `requests` call: `none` when the call itself raises
(connection failure etc.), otherwise the response. -/
abbrev HttpOutcome := Option HttpResponse

/-- Every handler in the source is `except Exception`, which catches every
exception that can occur in its `try` suite. -/
def handles : Exn → Bool := fun _ => true

/-- The session fields held by `FirebaseAuth` (`Json.null` = unset). -/
structure AuthState where
  id_token : Json
  user_id : Json
  email : Json
  refresh_token : Json
deriving Repr

/-- `FirebaseAuth.__init__`: all four fields start as `None`. -/
def AuthState.init : AuthState := ⟨.null, .null, .null, .null⟩

namespace FirebaseAuth

/-- The `try` suite of `FirebaseAuth.sign_in`: read the response, parse it
with `response.json()` (raises on a non-JSON body), then on status 200 store
the four `data.get(...)` fields and return `True`; otherwise extract the
error message (`data.get("error", {}).get("message", ...)`, which raises on a
non-dict) and return `False` leaving the state alone. -/
def sign_inBody (st : AuthState) (o : HttpOutcome) : Except Exn (AuthState × Bool) :=
  match o with
  | none => .error .transportError
  | some r =>
    match r.jsonBody with
    | none => .error .decodeError
    | some data =>
      if r.status = 200 then
        match data with
        | .obj fs =>
          .ok ({ id_token := dgetD fs "idToken" .null,
                 user_id := dgetD fs "localId" .null,
                 email := dgetD fs "email" .null,
                 refresh_token := dgetD fs "refreshToken" .null }, true)
        | _ => .error .attributeError
      else
        match data with
        | .obj fs =>
          match dgetD fs "error" (.obj []) with
          | .obj _ => .ok (st, false)
          | _ => .error .attributeError
        | _ => .error .attributeError

/-- `FirebaseAuth.sign_in`: the `try` suite under the catch-all handler,
which prints and returns `False` with the state untouched. -/
def sign_in (st : AuthState) (o : HttpOutcome) : AuthState × Bool :=
  match sign_inBody st o with
  | .ok res => res
  | .error _ => (st, false)

/-- The `try` suite of `FirebaseAuth.sign_up` (the source duplicates the
`sign_in` logic verbatim apart from the endpoint and messages). -/
def sign_upBody (st : AuthState) (o : HttpOutcome) : Except Exn (AuthState × Bool) :=
  match o with
  | none => .error .transportError
  | some r =>
    match r.jsonBody with
    | none => .error .decodeError
    | some data =>
      if r.status = 200 then
        match data with
        | .obj fs =>
          .ok ({ id_token := dgetD fs "idToken" .null,
                 user_id := dgetD fs "localId" .null,
                 email := dgetD fs "email" .null,
                 refresh_token := dgetD fs "refreshToken" .null }, true)
        | _ => .error .attributeError
      else
        match data with
        | .obj fs =>
          match dgetD fs "error" (.obj []) with
          | .obj _ => .ok (st, false)
          | _ => .error .attributeError
        | _ => .error .attributeError

/-- `FirebaseAuth.sign_up`: `try` suite under the catch-all handler. -/
def sign_up (st : AuthState) (o : HttpOutcome) : AuthState × Bool :=
  match sign_upBody st o with
  | .ok res => res
  | .error _ => (st, false)

end FirebaseAuth

namespace RealtimeDB

/-- The `try` suite of `RealtimeDB.get`: on status 200 return
`response.json()` (raises when the body is not JSON), else print the error
and return `None`. -/
def getTry (o : HttpOutcome) : Except Exn Json :=
  match o with
  | none => .error .transportError
  | some r =>
    if r.status = 200 then
      match r.jsonBody with
      | some j => .ok j
      | none => .error .decodeError
    else .ok .null

/-- `RealtimeDB.get`: the `try` suite under the catch-all handler, which
prints and returns `None`. -/
def get (o : HttpOutcome) : Json :=
  match getTry o with
  | .ok v => v
  | .error _ => .null

/-- `RealtimeDB.get` with exception propagation made explicit: an uncaught
exception would show up as `.error`. -/
def getSem (o : HttpOutcome) : Except Exn Json :=
  match getTry o with
  | .ok v => .ok v
  | .error e => if handles e then .ok .null else .error e

/-- The `try` suite of `RealtimeDB.post`: on status 200 parse the body and
return `result.get("name")` (raises on a non-dict body), else print and
return `None`. -/
def postTry (o : HttpOutcome) : Except Exn Json :=
  match o with
  | none => .error .transportError
  | some r =>
    if r.status = 200 then
      match r.jsonBody with
      | none => .error .decodeError
      | some (.obj fs) => .ok (dgetD fs "name" .null)
      | some _ => .error .attributeError
    else .ok .null

/-- `RealtimeDB.post`: the `try` suite under the catch-all handler. -/
def post (o : HttpOutcome) : Json :=
  match postTry o with
  | .ok v => v
  | .error _ => .null

/-- `RealtimeDB.post` with exception propagation made explicit. -/
def postSem (o : HttpOutcome) : Except Exn Json :=
  match postTry o with
  | .ok v => .ok v
  | .error e => if handles e then .ok .null else .error e

/-- The `try` suite of `RealtimeDB.put`: `True` iff the response status is
200 (the body is never parsed). -/
def putTry (o : HttpOutcome) : Except Exn Bool :=
  match o with
  | none => .error .transportError
  | some r => .ok (r.status == 200)

/-- `RealtimeDB.put`: the `try` suite under the catch-all handler, which
prints and returns `False`. -/
def put (o : HttpOutcome) : Bool :=
  match putTry o with
  | .ok v => v
  | .error _ => false

/-- `RealtimeDB.put` with exception propagation made explicit. -/
def putSem (o : HttpOutcome) : Except Exn Bool :=
  match putTry o with
  | .ok v => .ok v
  | .error e => if handles e then .ok false else .error e

/-- The `try` suite of `RealtimeDB.patch` (same shape as `put`). -/
def patchTry (o : HttpOutcome) : Except Exn Bool :=
  match o with
  | none => .error .transportError
  | some r => .ok (r.status == 200)

/-- `RealtimeDB.patch`: the `try` suite under the catch-all handler. -/
def patch (o : HttpOutcome) : Bool :=
  match patchTry o with
  | .ok v => v
  | .error _ => false

/-- `RealtimeDB.patch` with exception propagation made explicit. -/
def patchSem (o : HttpOutcome) : Except Exn Bool :=
  match patchTry o with
  | .ok v => .ok v
  | .error e => if handles e then .ok false else .error e

end RealtimeDB

/-- The kinds of `messagebox` dialogs the GUI shows. -/
inductive UserMessage where
  | inputError : UserMessage
  | postSuccess : UserMessage
  | postFailure : UserMessage
deriving Repr, DecidableEq

namespace SurveyGUI

/-- `SurveyGUI.get_user_name`: return the cached name on a hit; with no
database return `"不明"`; otherwise fetch `users/{user_id}` — a truthy result
yields `u_data.get("name", "名無し")` which is cached and returned (raising on
a truthy non-dict), a falsy result yields `"不明"` with no caching.
`o` is the outcome of the HTTP GET the fetch performs. -/
def get_user_name (cache : List (Json × Json)) (hasDb : Bool) (user_id : Json)
    (o : HttpOutcome) : Except Exn (Json × List (Json × Json)) :=
  match Cache.find? cache user_id with
  | some n => .ok (n, cache)
  | none =>
    if !hasDb then .ok (.str "不明", cache)
    else
      let u_data := RealtimeDB.get o
      if u_data.truthy then
        match u_data with
        | .obj fs =>
          let name := dgetD fs "name" (.str "名無し")
          .ok (name, Cache.set cache user_id name)
        | _ => .error .attributeError
      else .ok (.str "不明", cache)

/-- Python `email.split("@")[0]`: the prefix before the first `"@"` (the
whole string when there is none). -/
def localPart (s : String) : String := ⟨s.data.takeWhile (fun c => c ≠ '@')⟩

/-- Observable result of `SurveyGUI._setup_user_profile`: the profile record
written by `put` (when one is issued), the ignored result of that `put`, and
the updated display-name cache. -/
structure SetupResult where
  putCall : Option Json
  putResult : Option Bool
  cache : List (Json × Json)
deriving Repr

/-- `SurveyGUI._setup_user_profile`: read `users/{uid}`; when the result or
its `name` field is falsy, prompt for a display name (`prompt = none` models
a cancelled dialog), fall back to the local part of `auth.email` when the
prompt result is falsy (raising if the email is not a string), write the
profile `{name, email, id}` with `put` (result ignored) and cache the name;
otherwise cache the stored `user_data["name"]` and write nothing. -/
def _setup_user_profile (uid email : Json) (cache : List (Json × Json))
    (getOutcome : HttpOutcome) (prompt : Option String) (putOutcome : HttpOutcome) :
    Except Exn SetupResult :=
  let user_data := RealtimeDB.get getOutcome
  let fallback : Except Exn String :=
    match email with
    | .str e => .ok (localPart e)
    | _ => .error .attributeError
  let needName : Except Exn SetupResult :=
    match (match prompt with
           | some s => if s = "" then fallback else .ok s
           | none => fallback) with
    | .error e => .error e
    | .ok new_name =>
      let profile : Json := .obj [("name", .str new_name), ("email", email), ("id", uid)]
      .ok ⟨some profile, some (RealtimeDB.put putOutcome), Cache.set cache uid (.str new_name)⟩
  if user_data.truthy = false then needName
  else
    match user_data with
    | .obj fs =>
      if (dgetD fs "name" .null).truthy = false then needName
      else
        match Dict.find? fs "name" with
        | some v => .ok ⟨none, none, Cache.set cache uid v⟩
        | none => .error .keyError
    | _ => .error .attributeError

end SurveyGUI

namespace MainFrame

/-- Observable result of the post-question dialog's `submit`: the record
POSTed to the `questions` collection (when a request is issued) and the
dialog shown to the user. -/
structure SubmitResult where
  posted : Option Json
  message : UserMessage
deriving Repr

/-- `MainFrame.open_post_dialog`'s `submit`: strip title and body; when
either is empty show the input-error warning and stop; otherwise POST
`{name, body, sender}` to `questions` and show success or failure according
to the truthiness of the returned key. -/
def submit (title body : String) (user_id : Json) (postOutcome : HttpOutcome) :
    SubmitResult :=
  let t := pyStrip title
  let b := pyStrip body
  if t = "" || b = "" then ⟨none, .inputError⟩
  else
    let data : Json := .obj [("name", .str t), ("body", .str b), ("sender", user_id)]
    if (RealtimeDB.post postOutcome).truthy then ⟨some data, .postSuccess⟩
    else ⟨some data, .postFailure⟩

end MainFrame

namespace DetailFrame

/-- The per-entry loop of `DetailFrame.load_answers`: for each answer entry
resolve `a_data.get("sender", "")` through `get_user_name` (threading the
display-name cache) and render the name with `a_data.get("body", "")`, in
iteration order. `fetch` gives the HTTP outcome of the `users/{id}` lookup
`get_user_name` performs for a given sender id. -/
def renderAnswers (fetch : Json → HttpOutcome) :
    List (Json × Json) → List (String × Json) →
    Except Exn (List (Json × Json) × List (Json × Json))
  | cache, [] => .ok ([], cache)
  | cache, (_, a_data) :: rest =>
    match a_data with
    | .obj afs =>
      let sender := dgetD afs "sender" (.str "")
      match SurveyGUI.get_user_name cache true sender (fetch sender) with
      | .error e => .error e
      | .ok (name, cache₁) =>
        let body := dgetD afs "body" (.str "")
        match renderAnswers fetch cache₁ rest with
        | .error e => .error e
        | .ok (items, cacheF) => .ok ((name, body) :: items, cacheF)
    | _ => .error .attributeError

/-- What `DetailFrame.load_answers` puts into the answers text widget: the
"(まだ回答はありません)" line, or one (name, body) item per entry. -/
structure AnswersView where
  noAnswersMsg : Bool
  items : List (Json × Json)
  cache : List (Json × Json)
deriving Repr

/-- `DetailFrame.load_answers`: fetch `answers/{question_id}`; a falsy result
renders the no-answers line; otherwise iterate `answers.items()` (raising on
a truthy non-dict), rendering each entry's resolved sender name and body. -/
def load_answers (cache : List (Json × Json)) (answersOutcome : HttpOutcome)
    (fetch : Json → HttpOutcome) : Except Exn AnswersView :=
  let answers := RealtimeDB.get answersOutcome
  if answers.truthy = false then .ok ⟨true, [], cache⟩
  else
    match answers with
    | .obj fs =>
      match renderAnswers fetch cache fs with
      | .error e => .error e
      | .ok (items, cacheF) => .ok ⟨false, items, cacheF⟩
    | _ => .error .attributeError

/-- Observable result of `DetailFrame.submit_answer`: the record POSTed to
`answers/{question_id}` (when a request is issued), the dialog shown, and
whether the entry widget was cleared and the answers list reloaded. -/
structure AnswerSubmit where
  posted : Option Json
  message : Option UserMessage
  entryCleared : Bool
  reloaded : Bool
deriving Repr

/-- `DetailFrame.submit_answer`: strip the entry text; when empty, return
with no request, no dialog and no widget change; otherwise POST
`{target, body, sender}` and on a truthy key clear the entry, reload the
answers and show success, else show failure. -/
def submit_answer (question_id user_id : Json) (raw : String)
    (postOutcome : HttpOutcome) : AnswerSubmit :=
  let body := pyStrip raw
  if body = "" then ⟨none, none, false, false⟩
  else
    let data : Json := .obj [("target", question_id), ("body", .str body), ("sender", user_id)]
    if (RealtimeDB.post postOutcome).truthy then ⟨some data, some .postSuccess, true, true⟩
    else ⟨some data, some .postFailure, false, false⟩

end DetailFrame

/-- The display name `_setup_user_profile` ends up writing: the prompt result,
or the local part of the email when the prompt was cancelled or empty. -/
def chosenName (e : String) (prompt : Option String) : String :=
  match prompt with
  | some s => if s = "" then SurveyGUI.localPart e else s
  | none => SurveyGUI.localPart e

/-- A well-formed stored profile value: the node is absent (`null`) or a JSON
object, which is all this application ever writes at `users/{id}`. -/
def wfProfile (j : Json) : Prop := j = .null ∨ ∃ fs, j = .obj fs

/-- The display name a sender id resolves to from the remote store alone:
the profile's `name` field (or the nameless placeholder when the field is
missing) when a truthy profile object is fetched, the unknown placeholder
otherwise. This is exactly what `get_user_name` returns — and caches — on a
cache miss. -/
def resolvedName (fetch : Json → HttpOutcome) (sender : Json) : Json :=
  match RealtimeDB.get (fetch sender) with
  | .obj fs => if (Json.obj fs).truthy then dgetD fs "name" (.str "名無し") else .str "不明"
  | _ => .str "不明"

/-- The display-name cache agrees with what the store resolves each id to:
every cached entry equals `resolvedName` of its key. Holds for the empty
cache, and is preserved by `get_user_name`'s own insertions. -/
def cacheConsistent (fetch : Json → HttpOutcome) (cache : List (Json × Json)) : Prop :=
  ∀ k v, Cache.find? cache k = some v → v = resolvedName fetch k

/-- An answer entry is rendered correctly as a (name, body) item: the item's
body is the entry's `body` field, and its name is the display name that
resolution yields for the entry's sender id. -/
def rendersEntry (fetch : Json → HttpOutcome) (e : String × Json) (it : Json × Json) :
    Prop :=
  ∀ afs, e.2 = Json.obj afs →
    it.2 = dgetD afs "body" (.str "") ∧
    it.1 = resolvedName fetch (dgetD afs "sender" (.str ""))

mutual

/-- `Json.beq` is reflexive. -/
theorem Json.beq_refl : ∀ j : Json, Json.beq j j = true
  | .null => rfl
  | .bool b => by simp [Json.beq]
  | .num n => by simp [Json.beq]
  | .str s => by simp [Json.beq]
  | .arr xs => by simp [Json.beq, Json.beqList_refl xs]
  | .obj fs => by simp [Json.beq, Json.beqObj_refl fs]

/-- `Json.beqList` is reflexive. -/
theorem Json.beqList_refl : ∀ xs : List Json, Json.beqList xs xs = true
  | [] => rfl
  | x :: xs => by simp [Json.beqList, Json.beq_refl x, Json.beqList_refl xs]

/-- `Json.beqObj` is reflexive. -/
theorem Json.beqObj_refl : ∀ fs : List (String × Json), Json.beqObj fs fs = true
  | [] => rfl
  | (k, v) :: fs => by simp [Json.beqObj, Json.beq_refl v, Json.beqObj_refl fs]

end

mutual

/-- `Json.beq` is sound: boolean equality implies propositional equality. -/
theorem Json.eq_of_beq : ∀ a b : Json, Json.beq a b = true → a = b
  | .null, .null, _ => rfl
  | .bool a, .bool b, h => by
      have hb : a = b := by simpa [Json.beq] using h
      rw [hb]
  | .num a, .num b, h => by
      have hn : a = b := by simpa [Json.beq] using h
      rw [hn]
  | .str a, .str b, h => by
      have hs : a = b := by simpa [Json.beq] using h
      rw [hs]
  | .arr xs, .arr ys, h => by
      rw [Json.eqList_of_beqList xs ys (by simpa [Json.beq] using h)]
  | .obj xs, .obj ys, h => by
      rw [Json.eqObj_of_beqObj xs ys (by simpa [Json.beq] using h)]
  | .null, .bool _, h => Bool.noConfusion h
  | .null, .num _, h => Bool.noConfusion h
  | .null, .str _, h => Bool.noConfusion h
  | .null, .arr _, h => Bool.noConfusion h
  | .null, .obj _, h => Bool.noConfusion h
  | .bool _, .null, h => Bool.noConfusion h
  | .bool _, .num _, h => Bool.noConfusion h
  | .bool _, .str _, h => Bool.noConfusion h
  | .bool _, .arr _, h => Bool.noConfusion h
  | .bool _, .obj _, h => Bool.noConfusion h
  | .num _, .null, h => Bool.noConfusion h
  | .num _, .bool _, h => Bool.noConfusion h
  | .num _, .str _, h => Bool.noConfusion h
  | .num _, .arr _, h => Bool.noConfusion h
  | .num _, .obj _, h => Bool.noConfusion h
  | .str _, .null, h => Bool.noConfusion h
  | .str _, .bool _, h => Bool.noConfusion h
  | .str _, .num _, h => Bool.noConfusion h
  | .str _, .arr _, h => Bool.noConfusion h
  | .str _, .obj _, h => Bool.noConfusion h
  | .arr _, .null, h => Bool.noConfusion h
  | .arr _, .bool _, h => Bool.noConfusion h
  | .arr _, .num _, h => Bool.noConfusion h
  | .arr _, .str _, h => Bool.noConfusion h
  | .arr _, .obj _, h => Bool.noConfusion h
  | .obj _, .null, h => Bool.noConfusion h
  | .obj _, .bool _, h => Bool.noConfusion h
  | .obj _, .num _, h => Bool.noConfusion h
  | .obj _, .str _, h => Bool.noConfusion h
  | .obj _, .arr _, h => Bool.noConfusion h

/-- `Json.beqList` is sound. -/
theorem Json.eqList_of_beqList : ∀ xs ys : List Json, Json.beqList xs ys = true → xs = ys
  | [], [], _ => rfl
  | x :: xs, y :: ys, h => by
      have h' : Json.beq x y = true ∧ Json.beqList xs ys = true := by
        simpa [Json.beqList, Bool.and_eq_true] using h
      rw [Json.eq_of_beq x y h'.1, Json.eqList_of_beqList xs ys h'.2]
  | [], _ :: _, h => Bool.noConfusion h
  | _ :: _, [], h => Bool.noConfusion h

/-- `Json.beqObj` is sound. -/
theorem Json.eqObj_of_beqObj :
    ∀ xs ys : List (String × Json), Json.beqObj xs ys = true → xs = ys
  | [], [], _ => rfl
  | (k, v) :: xs, (l, w) :: ys, h => by
      have h' : ((k == l) = true ∧ Json.beq v w = true) ∧ Json.beqObj xs ys = true := by
        simpa [Json.beqObj, Bool.and_eq_true] using h
      have hk : k = l := by simpa using h'.1.1
      rw [hk, Json.eq_of_beq v w h'.1.2, Json.eqObj_of_beqObj xs ys h'.2]
  | [], _ :: _, h => Bool.noConfusion h
  | _ :: _, [], h => Bool.noConfusion h

end

/-- `Json.beq` decides equality of JSON values. -/
theorem Json.beq_iff {a b : Json} : Json.beq a b = true ↔ a = b :=
  ⟨Json.eq_of_beq a b, fun h => h ▸ Json.beq_refl a⟩

/-- C3: every call to the four accessor operations `get`, `post`, `put`,
`patch` returns normally for every outcome of the underlying HTTP request —
a value, the absent-value indicator `Json.null`, or a boolean. Stated on the
`...Sem` variants, in which an exception not caught by the handler would
surface as `.error`: each always yields `.ok` of the plain result. -/
theorem accessors_never_raise (o : HttpOutcome) :
    RealtimeDB.getSem o = .ok (RealtimeDB.get o) ∧
    RealtimeDB.postSem o = .ok (RealtimeDB.post o) ∧
    RealtimeDB.putSem o = .ok (RealtimeDB.put o) ∧
    RealtimeDB.patchSem o = .ok (RealtimeDB.patch o) := by
  refine ⟨?_, ?_, ?_, ?_⟩
  · unfold RealtimeDB.getSem RealtimeDB.get
    cases RealtimeDB.getTry o <;> simp [handles]
  · unfold RealtimeDB.postSem RealtimeDB.post
    cases RealtimeDB.postTry o <;> simp [handles]
  · unfold RealtimeDB.putSem RealtimeDB.put
    cases RealtimeDB.putTry o <;> simp [handles]
  · unfold RealtimeDB.patchSem RealtimeDB.patch
    cases RealtimeDB.patchTry o <;> simp [handles]

/-- C8: `RealtimeDB.get` returns the parsed JSON body of the response when
the HTTP status is OK, and the absent-value indicator (`Json.null`, Python
`None`) on any failure — non-OK status or transport error. -/
theorem get_ok_body_else_null (o : HttpOutcome) :
    (∀ r j, o = some r → r.status = 200 → r.jsonBody = some j →
       RealtimeDB.get o = j) ∧
    ((o = none ∨ ∃ r, o = some r ∧ r.status ≠ 200) → RealtimeDB.get o = .null) := by
  constructor
  · rintro r j rfl hs hb
    simp [RealtimeDB.get, RealtimeDB.getTry, hs, hb]
  · rintro (rfl | ⟨r, rfl, hs⟩)
    · rfl
    · simp [RealtimeDB.get, RealtimeDB.getTry, hs]

/-- Witness for C8: a 200 response returns its body; a 404 returns `null`. -/
theorem get_ok_body_else_null_witness :
    RealtimeDB.get (some ⟨200, some (.obj [("k", .num 1)])⟩) = .obj [("k", .num 1)] ∧
    RealtimeDB.get (some ⟨404, some (.str "denied")⟩) = .null :=
  ⟨(get_ok_body_else_null _).1 _ _ rfl rfl rfl,
   (get_ok_body_else_null _).2 (Or.inr ⟨_, rfl, by decide⟩)⟩

/-- C1: a sign-in or sign-up whose authentication response has OK status
(and a parsed JSON object body, the shape the service's success responses
have) stores all four session fields — identity token, user id, email,
refresh token — from the response and returns success. -/
theorem auth_ok_stores_fields (st : AuthState) (r : HttpResponse)
    (fs : List (String × Json)) (hs : r.status = 200)
    (hb : r.jsonBody = some (.obj fs)) :
    FirebaseAuth.sign_in st (some r) =
      ({ id_token := dgetD fs "idToken" .null,
         user_id := dgetD fs "localId" .null,
         email := dgetD fs "email" .null,
         refresh_token := dgetD fs "refreshToken" .null }, true) ∧
    FirebaseAuth.sign_up st (some r) =
      ({ id_token := dgetD fs "idToken" .null,
         user_id := dgetD fs "localId" .null,
         email := dgetD fs "email" .null,
         refresh_token := dgetD fs "refreshToken" .null }, true) := by
  constructor <;>
    simp [FirebaseAuth.sign_in, FirebaseAuth.sign_up,
          FirebaseAuth.sign_inBody, FirebaseAuth.sign_upBody, hb, hs]

/-- Witness for C1: a concrete OK response populates the session. -/
theorem auth_ok_stores_fields_witness :
    FirebaseAuth.sign_in AuthState.init
      (some ⟨200, some (.obj [("idToken", .str "tok"), ("localId", .str "uid1"),
        ("email", .str "a@b.c"), ("refreshToken", .str "ref")])⟩) =
      (⟨.str "tok", .str "uid1", .str "a@b.c", .str "ref"⟩, true) ∧
    FirebaseAuth.sign_up AuthState.init
      (some ⟨200, some (.obj [("idToken", .str "tok"), ("localId", .str "uid1"),
        ("email", .str "a@b.c"), ("refreshToken", .str "ref")])⟩) =
      (⟨.str "tok", .str "uid1", .str "a@b.c", .str "ref"⟩, true) :=
  auth_ok_stores_fields AuthState.init
    ⟨200, some (.obj [("idToken", .str "tok"), ("localId", .str "uid1"),
      ("email", .str "a@b.c"), ("refreshToken", .str "ref")])⟩
    [("idToken", .str "tok"), ("localId", .str "uid1"),
      ("email", .str "a@b.c"), ("refreshToken", .str "ref")] rfl rfl

/-- C2: a sign-in or sign-up that sees a transport failure, a body on which
`response.json()` raises, or a non-OK status returns failure and leaves all
four session fields exactly as they were before the call. -/
theorem auth_failure_preserves_state (st : AuthState) (o : HttpOutcome)
    (h : o = none ∨ ∃ r, o = some r ∧ (r.jsonBody = none ∨ r.status ≠ 200)) :
    FirebaseAuth.sign_in st o = (st, false) ∧
    FirebaseAuth.sign_up st o = (st, false) := by
  rcases h with rfl | ⟨r, rfl, hb | hs⟩
  · exact ⟨rfl, rfl⟩
  · constructor <;>
      simp [FirebaseAuth.sign_in, FirebaseAuth.sign_up,
            FirebaseAuth.sign_inBody, FirebaseAuth.sign_upBody, hb]
  · constructor <;>
    · simp only [FirebaseAuth.sign_in, FirebaseAuth.sign_up,
        FirebaseAuth.sign_inBody, FirebaseAuth.sign_upBody]
      cases hb : r.jsonBody with
      | none => rfl
      | some data =>
        cases data <;>
          (simp [hs]; try (cases hdg : dgetD _ "error" (.obj []) <;> simp))

/-- Witness for C2: a concrete 400 error response leaves a populated session
untouched and reports failure. -/
theorem auth_failure_preserves_state_witness :
    FirebaseAuth.sign_in ⟨.str "t0", .str "u0", .str "e0", .str "r0"⟩
      (some ⟨400, some (.obj [("error", .obj [("message", .str "INVALID_PASSWORD")])])⟩) =
      (⟨.str "t0", .str "u0", .str "e0", .str "r0"⟩, false) ∧
    FirebaseAuth.sign_up ⟨.str "t0", .str "u0", .str "e0", .str "r0"⟩
      (some ⟨400, some (.obj [("error", .obj [("message", .str "INVALID_PASSWORD")])])⟩) =
      (⟨.str "t0", .str "u0", .str "e0", .str "r0"⟩, false) :=
  auth_failure_preserves_state ⟨.str "t0", .str "u0", .str "e0", .str "r0"⟩
    (some ⟨400, some (.obj [("error", .obj [("message", .str "INVALID_PASSWORD")])])⟩)
    (Or.inr ⟨_, rfl, Or.inr (by decide)⟩)

/-- Looking up a key right after setting it finds the set value. -/
theorem Cache.find?_set_self (l : List (Json × Json)) (k v : Json) :
    Cache.find? (Cache.set l k v) k = some v := by
  induction l with
  | nil => simp [Cache.set, Cache.find?, Json.beq_refl]
  | cons hd tl ih =>
    obtain ⟨k', v'⟩ := hd
    by_cases h : Json.beq k' k = true
    · simp [Cache.set, h, Cache.find?, Json.beq_refl]
    · simp [Cache.set, h, Cache.find?, ih]

/-- C4 fails as stated: resolving an id whose profile is absent returns the
placeholder `"不明"` but does not cache it — the cache returned by the call
is still empty, so the claim that the placeholder is cached "for the
remainder of the process" is false at this input. -/
theorem get_user_name_absent_placeholder_not_cached :
    SurveyGUI.get_user_name [] true (.str "u1") (some ⟨200, some .null⟩) =
      .ok (.str "不明", ([] : List (Json × Json))) := rfl

/-- C4 (amended): name resolution consults the cache first and returns the
cached name on a hit, with no remote fetch; on a miss it fetches the profile
by id: when a profile is present its name (or the nameless placeholder when
the `name` field is missing) is cached for the remainder of the process and
returned, and when the profile is absent the unknown placeholder is returned
without being cached; in all these cases it returns normally. -/
theorem get_user_name_spec (cache : List (Json × Json)) (user_id : Json) :
    (∀ n o, Cache.find? cache user_id = some n →
       SurveyGUI.get_user_name cache true user_id o = .ok (n, cache)) ∧
    (∀ o, Cache.find? cache user_id = none → RealtimeDB.get o = .null →
       SurveyGUI.get_user_name cache true user_id o = .ok (.str "不明", cache)) ∧
    (∀ o fs, Cache.find? cache user_id = none → RealtimeDB.get o = .obj fs →
       (Json.obj fs).truthy = true →
       SurveyGUI.get_user_name cache true user_id o =
         .ok (dgetD fs "name" (.str "名無し"),
              Cache.set cache user_id (dgetD fs "name" (.str "名無し"))) ∧
       Cache.find? (Cache.set cache user_id (dgetD fs "name" (.str "名無し"))) user_id =
         some (dgetD fs "name" (.str "名無し"))) := by
  refine ⟨?_, ?_, ?_⟩
  · intro n o hn
    simp [SurveyGUI.get_user_name, hn]
  · intro o hn ho
    simp [SurveyGUI.get_user_name, hn, ho, Json.truthy]
  · intro o fs hn ho ht
    refine ⟨?_, Cache.find?_set_self _ _ _⟩
    simp [SurveyGUI.get_user_name, hn, ho, ht]

/-- Witness for the amended C4: a cache hit, an absent profile, and a
present profile, at concrete inputs. -/
theorem get_user_name_spec_witness :
    SurveyGUI.get_user_name [(.str "u1", .str "A")] true (.str "u1") none =
      .ok (.str "A", [(.str "u1", .str "A")]) ∧
    SurveyGUI.get_user_name [] true (.str "u2") (some ⟨200, some .null⟩) =
      .ok (.str "不明", []) ∧
    SurveyGUI.get_user_name [] true (.str "u2")
        (some ⟨200, some (.obj [("name", .str "Bob")])⟩) =
      .ok (.str "Bob", [(.str "u2", .str "Bob")]) := by
  refine ⟨(get_user_name_spec _ _).1 _ _ rfl,
          (get_user_name_spec _ _).2.1 _ rfl rfl, ?_⟩
  exact ((get_user_name_spec [] (.str "u2")).2.2
    (some ⟨200, some (.obj [("name", .str "Bob")])⟩) [("name", .str "Bob")] rfl rfl rfl).1

/-- C5: the profile check reads the profile by id; when it is absent or its
stored name is falsy it prompts for a display name, substitutes the local
part of the session email for a blank or cancelled prompt, writes the
profile `{name, email, id}` and caches the name; when a truthy name is
stored it adopts it and writes nothing. -/
theorem setup_user_profile_spec (uid : Json) (e : String)
    (cache : List (Json × Json)) (getOutcome : HttpOutcome)
    (prompt : Option String) (putOutcome : HttpOutcome) :
    (RealtimeDB.get getOutcome = .null →
       SurveyGUI._setup_user_profile uid (.str e) cache getOutcome prompt putOutcome =
         .ok ⟨some (.obj [("name", .str (chosenName e prompt)),
                          ("email", .str e), ("id", uid)]),
              some (RealtimeDB.put putOutcome),
              Cache.set cache uid (.str (chosenName e prompt))⟩) ∧
    (∀ fs, RealtimeDB.get getOutcome = .obj fs →
       (dgetD fs "name" .null).truthy = false →
       SurveyGUI._setup_user_profile uid (.str e) cache getOutcome prompt putOutcome =
         .ok ⟨some (.obj [("name", .str (chosenName e prompt)),
                          ("email", .str e), ("id", uid)]),
              some (RealtimeDB.put putOutcome),
              Cache.set cache uid (.str (chosenName e prompt))⟩) ∧
    (∀ fs v, RealtimeDB.get getOutcome = .obj fs →
       Dict.find? fs "name" = some v → v.truthy = true →
       SurveyGUI._setup_user_profile uid (.str e) cache getOutcome prompt putOutcome =
         .ok ⟨none, none, Cache.set cache uid v⟩) ∧
    (chosenName e none = SurveyGUI.localPart e ∧
     chosenName e (some "") = SurveyGUI.localPart e ∧
     ∀ s, s ≠ "" → chosenName e (some s) = s) := by
  refine ⟨?_, ?_, ?_, ?_, ?_, ?_⟩
  · intro h0
    cases prompt with
    | none => simp [SurveyGUI._setup_user_profile, h0, chosenName, Json.truthy]
    | some s =>
      by_cases hs : s = "" <;>
        simp [SurveyGUI._setup_user_profile, h0, chosenName, hs, Json.truthy]
  · intro fs hfs hname
    cases fs with
    | nil =>
      cases prompt with
      | none => simp [SurveyGUI._setup_user_profile, hfs, chosenName, Json.truthy]
      | some s =>
        by_cases hs : s = "" <;>
          simp [SurveyGUI._setup_user_profile, hfs, chosenName, hs, Json.truthy]
    | cons hd tl =>
      have htr : (Json.obj (hd :: tl)).truthy = true := by simp [Json.truthy]
      cases prompt with
      | none =>
        simp [SurveyGUI._setup_user_profile, hfs, htr, hname, chosenName]
      | some s =>
        by_cases hs : s = "" <;>
          simp [SurveyGUI._setup_user_profile, hfs, htr, hname, chosenName, hs]
  · intro fs v hfs hv ht
    cases fs with
    | nil => simp [Dict.find?] at hv
    | cons hd tl =>
      have htr : (Json.obj (hd :: tl)).truthy = true := by simp [Json.truthy]
      have hnm : dgetD (hd :: tl) "name" Json.null = v := by simp [dgetD, hv]
      simp [SurveyGUI._setup_user_profile, hfs, htr, hnm, ht, hv]
  · simp [chosenName]
  · simp [chosenName]
  · intro s hs
    simp [chosenName, hs]

/-- Witness for C5: an absent profile with a cancelled prompt writes the
profile named after the email's local part; a stored name is adopted with
no write. -/
theorem setup_user_profile_spec_witness :
    SurveyGUI._setup_user_profile (.str "U1") (.str "alice@example.com") []
      (some ⟨200, some .null⟩) none (some ⟨200, some .null⟩) =
      .ok ⟨some (.obj [("name", .str "alice"),
                       ("email", .str "alice@example.com"), ("id", .str "U1")]),
           some true, [(.str "U1", .str "alice")]⟩ ∧
    SurveyGUI._setup_user_profile (.str "U1") (.str "alice@example.com") []
      (some ⟨200, some (.obj [("name", .str "Alice")])⟩) none none =
      .ok ⟨none, none, [(.str "U1", .str "Alice")]⟩ := by
  constructor
  · exact (setup_user_profile_spec (.str "U1") "alice@example.com" []
      (some ⟨200, some .null⟩) none (some ⟨200, some .null⟩)).1 rfl
  · exact (setup_user_profile_spec (.str "U1") "alice@example.com" []
      (some ⟨200, some (.obj [("name", .str "Alice")])⟩) none none).2.2.1
      [("name", .str "Alice")] (.str "Alice") rfl rfl rfl

/-- C9: whenever the profile check completes, the display-name cache has an
entry for the current user id, and when a profile record was written the
entry is exactly that record's name — with no constraint relating it to the
`put` outcome, so this holds even when the remote write failed. -/
theorem setup_user_profile_caches_unconditionally (uid email : Json)
    (cache : List (Json × Json)) (getOutcome : HttpOutcome)
    (prompt : Option String) (putOutcome : HttpOutcome) (res : SurveyGUI.SetupResult)
    (h : SurveyGUI._setup_user_profile uid email cache getOutcome prompt putOutcome
           = .ok res) :
    (∃ v, Cache.find? res.cache uid = some v) ∧
    (∀ n em i, res.putCall = some (.obj [("name", .str n), ("email", em), ("id", i)]) →
       Cache.find? res.cache uid = some (.str n)) := by
  simp only [SurveyGUI._setup_user_profile] at h
  split at h
  · split at h
    · exact absurd h (by simp)
    · rename_i new_name heq
      cases h
      refine ⟨⟨_, Cache.find?_set_self _ _ _⟩, ?_⟩
      intro n em i hp
      simp only [Option.some.injEq, Json.obj.injEq, List.cons.injEq, Prod.mk.injEq,
        Json.str.injEq] at hp
      obtain ⟨⟨-, rfl⟩, -⟩ := hp
      exact Cache.find?_set_self _ _ _
  · split at h
    · split at h
      · split at h
        · exact absurd h (by simp)
        · rename_i new_name heq
          cases h
          refine ⟨⟨_, Cache.find?_set_self _ _ _⟩, ?_⟩
          intro n em i hp
          simp only [Option.some.injEq, Json.obj.injEq, List.cons.injEq, Prod.mk.injEq,
            Json.str.injEq] at hp
          obtain ⟨⟨-, rfl⟩, -⟩ := hp
          exact Cache.find?_set_self _ _ _
      · split at h
        · cases h
          exact ⟨⟨_, Cache.find?_set_self _ _ _⟩, by intro n em i hp; cases hp⟩
        · exact absurd h (by simp)
    · exact absurd h (by simp)

/-- Witness for C9: the `put` outcome is a transport failure (`put` returns
`False`), yet the cache ends up holding the entered name. -/
theorem setup_user_profile_caches_unconditionally_witness :
    Cache.find? [(Json.str "U1", Json.str "Alice")] (.str "U1") = some (.str "Alice") :=
  (setup_user_profile_caches_unconditionally (.str "U1") (.str "alice@example.com") []
    (some ⟨200, some .null⟩) (some "Alice") none
    ⟨some (.obj [("name", .str "Alice"),
                 ("email", .str "alice@example.com"), ("id", .str "U1")]),
     some false, [(.str "U1", .str "Alice")]⟩ rfl).2
    "Alice" (.str "alice@example.com") (.str "U1") rfl

/-- C6: posting a question requires a non-empty stripped title and body:
otherwise nothing is posted and the input-error dialog is shown; with both
non-empty the record `{name: title, body, sender: current user id}` is
posted to the `questions` collection and success or failure is reported
according to the truthiness of the returned key. -/
theorem submit_question_spec (title body : String) (user_id : Json) (o : HttpOutcome) :
    ((pyStrip title = "" ∨ pyStrip body = "") →
       MainFrame.submit title body user_id o = ⟨none, .inputError⟩) ∧
    (pyStrip title ≠ "" → pyStrip body ≠ "" →
       MainFrame.submit title body user_id o =
         ⟨some (.obj [("name", .str (pyStrip title)), ("body", .str (pyStrip body)),
                      ("sender", user_id)]),
          if (RealtimeDB.post o).truthy then .postSuccess else .postFailure⟩) := by
  constructor
  · rintro (h | h) <;> simp [MainFrame.submit, h]
  · intro ht hb
    by_cases hp : (RealtimeDB.post o).truthy <;>
      simp [MainFrame.submit, ht, hb, hp]

/-- Witness for C6: a whitespace title is rejected with the input-error
dialog; a valid submission posts the stripped record and reports success. -/
theorem submit_question_spec_witness :
    MainFrame.submit "   " "some body" (.str "u1") none = ⟨none, .inputError⟩ ∧
    MainFrame.submit " T " " B " (.str "u1")
        (some ⟨200, some (.obj [("name", .str "q1")])⟩) =
      ⟨some (.obj [("name", .str "T"), ("body", .str "B"), ("sender", .str "u1")]),
       .postSuccess⟩ := by
  constructor
  · exact (submit_question_spec "   " "some body" (.str "u1") none).1 (Or.inl rfl)
  · exact (submit_question_spec " T " " B " (.str "u1")
      (some ⟨200, some (.obj [("name", .str "q1")])⟩)).2 (by decide) (by decide)

/-- C10: submitting an answer whose body strips to empty is a silent no-op:
no POST is issued, no dialog is shown, the entry is not cleared and the
answers list is not reloaded. -/
theorem submit_answer_empty_silent_noop (question_id user_id : Json)
    (raw : String) (o : HttpOutcome) (h : pyStrip raw = "") :
    DetailFrame.submit_answer question_id user_id raw o = ⟨none, none, false, false⟩ := by
  simp [DetailFrame.submit_answer, h]

/-- Witness for C10: a whitespace-only entry changes nothing. -/
theorem submit_answer_empty_silent_noop_witness :
    DetailFrame.submit_answer (.str "q1") (.str "u1") "   " none =
      ⟨none, none, false, false⟩ :=
  submit_answer_empty_silent_noop (.str "q1") (.str "u1") "   " none rfl

/-- Lookup after `Cache.set`: the set key finds the new value, every other
key is unaffected. -/
theorem Cache.find?_set (l : List (Json × Json)) (u nm k : Json) :
    Cache.find? (Cache.set l u nm) k =
      if Json.beq u k then some nm else Cache.find? l k := by
  induction l with
  | nil =>
    cases h : Json.beq u k <;> simp [Cache.set, Cache.find?, h]
  | cons hd tl ih =>
    obtain ⟨k', v'⟩ := hd
    cases h1 : Json.beq k' u with
    | true =>
      obtain rfl := Json.eq_of_beq _ _ h1
      cases h2 : Json.beq k' k <;>
        simp [Cache.set, Cache.find?, Json.beq_refl, h2]
    | false =>
      cases h2 : Json.beq k' k with
      | true =>
        obtain rfl := Json.eq_of_beq _ _ h2
        have h3 : Json.beq u k' = false := by
          cases h4 : Json.beq u k' with
          | false => rfl
          | true =>
            obtain rfl := Json.eq_of_beq _ _ h4
            rw [Json.beq_refl] at h1
            exact Bool.noConfusion h1
        simp [Cache.set, Cache.find?, Json.beq_refl, h1, h3]
      | false =>
        simp [Cache.set, Cache.find?, h1, h2, ih]

/-- Inserting the resolved name of a key preserves cache consistency. -/
theorem cacheConsistent_set (fetch : Json → HttpOutcome)
    (cache : List (Json × Json)) (u : Json) (hc : cacheConsistent fetch cache) :
    cacheConsistent fetch (Cache.set cache u (resolvedName fetch u)) := by
  intro k v hv
  rw [Cache.find?_set] at hv
  cases h : Json.beq u k with
  | true =>
    obtain rfl := Json.eq_of_beq _ _ h
    simp [Json.beq_refl] at hv
    exact hv.symm
  | false =>
    simp [h] at hv
    exact hc k v hv

/-- On a consistent cache, `get_user_name` returns exactly the resolved
display name of the sender — from the cache on a hit, from the store on a
miss — and leaves the cache consistent. -/
theorem get_user_name_resolves (fetch : Json → HttpOutcome)
    (cache : List (Json × Json)) (user_id : Json)
    (hc : cacheConsistent fetch cache)
    (hwf : wfProfile (RealtimeDB.get (fetch user_id))) :
    ∃ cache', SurveyGUI.get_user_name cache true user_id (fetch user_id)
        = .ok (resolvedName fetch user_id, cache') ∧
      cacheConsistent fetch cache' := by
  cases hn : Cache.find? cache user_id with
  | some n =>
    have hn' := hc _ _ hn
    subst hn'
    exact ⟨cache, by simp [SurveyGUI.get_user_name, hn], hc⟩
  | none =>
    rcases hwf with h0 | ⟨fs, hfs⟩
    · refine ⟨cache, ?_, hc⟩
      simp [SurveyGUI.get_user_name, hn, h0, resolvedName, Json.truthy]
    · cases ht : (Json.obj fs).truthy with
      | true =>
        have hres : resolvedName fetch user_id = dgetD fs "name" (.str "名無し") := by
          simp [resolvedName, hfs, ht]
        refine ⟨Cache.set cache user_id (resolvedName fetch user_id), ?_, ?_⟩
        · rw [hres]
          simp [SurveyGUI.get_user_name, hn, hfs, ht]
        · exact cacheConsistent_set fetch cache user_id hc
      | false =>
        refine ⟨cache, ?_, hc⟩
        simp [SurveyGUI.get_user_name, hn, hfs, ht, resolvedName]

/-- The answer-rendering loop returns normally on well-formed entries and
profiles, rendering every entry's resolved name and body in order and
keeping the cache consistent. -/
theorem renderAnswers_ok (fetch : Json → HttpOutcome)
    (hwf : ∀ sender, wfProfile (RealtimeDB.get (fetch sender))) :
    ∀ (entries : List (String × Json)) (cache : List (Json × Json)),
      cacheConsistent fetch cache →
      (∀ p ∈ entries, ∃ afs, p.2 = Json.obj afs) →
      ∃ items cacheF,
        DetailFrame.renderAnswers fetch cache entries = .ok (items, cacheF) ∧
        List.Forall₂ (rendersEntry fetch) entries items ∧
        cacheConsistent fetch cacheF := by
  intro entries
  induction entries with
  | nil => exact fun cache hc _ => ⟨[], cache, rfl, List.Forall₂.nil, hc⟩
  | cons hd tl ih =>
    obtain ⟨k, a_data⟩ := hd
    intro cache hc hobj
    obtain ⟨afs, hafs⟩ := hobj (k, a_data) (by simp)
    simp only at hafs
    subst hafs
    obtain ⟨c₁, hgu, hc₁⟩ :=
      get_user_name_resolves fetch cache (dgetD afs "sender" (.str "")) hc (hwf _)
    obtain ⟨items, cacheF, hrec, hfa, hcF⟩ :=
      ih c₁ hc₁ (fun p hp => hobj p (by simp [hp]))
    refine ⟨(resolvedName fetch (dgetD afs "sender" (.str "")),
             dgetD afs "body" (.str "")) :: items, cacheF, ?_, ?_, hcF⟩
    · simp [DetailFrame.renderAnswers, hgu, hrec]
    · refine List.Forall₂.cons ?_ hfa
      intro afs' h'
      cases h'
      exact ⟨rfl, rfl⟩

/-- C7: listing answers for a selected question presents an empty or absent
collection as the explicit no-answers message — a normal result, not an
error; a non-empty collection is rendered entry by entry, each presenting
its `body` field and the display name its sender id resolves to (given a
display-name cache consistent with the store, e.g. the empty one). -/
theorem load_answers_spec (cache : List (Json × Json)) (o : HttpOutcome)
    (fetch : Json → HttpOutcome) :
    ((RealtimeDB.get o).truthy = false →
       DetailFrame.load_answers cache o fetch = .ok ⟨true, [], cache⟩) ∧
    (∀ fs, RealtimeDB.get o = .obj fs → (Json.obj fs).truthy = true →
       (∀ p ∈ fs, ∃ afs, p.2 = Json.obj afs) →
       (∀ sender, wfProfile (RealtimeDB.get (fetch sender))) →
       cacheConsistent fetch cache →
       ∃ items cacheF,
         DetailFrame.load_answers cache o fetch = .ok ⟨false, items, cacheF⟩ ∧
         items.length = fs.length ∧
         List.Forall₂ (rendersEntry fetch) fs items) := by
  constructor
  · intro h0
    simp [DetailFrame.load_answers, h0]
  · intro fs hfs ht hobj hwf hc
    obtain ⟨items, cacheF, hr, hfa, -⟩ := renderAnswers_ok fetch hwf fs cache hc hobj
    exact ⟨items, cacheF, by simp [DetailFrame.load_answers, hfs, ht, hr],
           hfa.length_eq.symm, hfa⟩

/-- Witness for C7: an absent answer collection yields the no-answers
message; a one-answer collection starting from the empty (hence consistent)
cache renders the answer's body with the sender's resolved name "Bob". -/
theorem load_answers_spec_witness :
    DetailFrame.load_answers [] (some ⟨200, some .null⟩) (fun _ => none) =
      .ok ⟨true, [], []⟩ ∧
    DetailFrame.load_answers []
        (some ⟨200, some (.obj [("a1", .obj [("sender", .str "u9"),
                                             ("body", .str "Sushi")])])⟩)
        (fun _ => some ⟨200, some (.obj [("name", .str "Bob")])⟩) =
      .ok ⟨false, [(.str "Bob", .str "Sushi")], [(.str "u9", .str "Bob")]⟩ := by
  constructor
  · exact (load_answers_spec [] (some ⟨200, some .null⟩) (fun _ => none)).1 rfl
  · obtain ⟨items, cacheF, heq, -, -⟩ :=
      (load_answers_spec []
        (some ⟨200, some (.obj [("a1", .obj [("sender", .str "u9"),
                                             ("body", .str "Sushi")])])⟩)
        (fun _ => some ⟨200, some (.obj [("name", .str "Bob")])⟩)).2
        [("a1", .obj [("sender", .str "u9"), ("body", .str "Sushi")])] rfl rfl
        (by rintro p hp
            cases hp with
            | head => exact ⟨_, rfl⟩
            | tail _ h => cases h)
        (fun sender => Or.inr ⟨_, rfl⟩)
        (fun k v hv => Option.noConfusion hv)
    have hval : Except.ok (ε := Exn) (DetailFrame.AnswersView.mk false
        [(Json.str "Bob", Json.str "Sushi")] [(Json.str "u9", Json.str "Bob")]) =
        .ok ⟨false, items, cacheF⟩ := Eq.trans (by rfl) heq
    rw [heq, ← hval]

end App
